import Mathlib

/-!
# Verification of the `tinrooster/connectors` repository

Shallow embedding of the two source programs:

* `src/access2excel/v1/access-to-excel-gui (4).py` — the `DatabaseImporter`
  widget: `load_columns` and `import_data` (range query, workbook writing,
  auto-filter criteria).
* `src/access_connector/v1/access_connector.py` — the `Settings` store
  (`load_settings` with defaults merge) and
  `AccessDatabaseManager.get_table_preview`.

GUI layout, file dialogs and logging are external collaborators and are not
modelled; the database engine is modelled as in-memory tables, and the
pyodbc/openpyxl effects as pure state transformations.
-/

namespace Connectors

/-- A scalar cell value as produced by the database driver: a string, an
integer, or SQL NULL (Python `None`). -/
inductive Val where
  | null : Val
  | str (s : String) : Val
  | int (n : Int) : Val
deriving DecidableEq

/-- Python `str(v)` on a cell value: `str(None) = "None"`. -/
def pyStr (v : Val) : String :=
  match v with
  | Val.null => "None"
  | Val.str s => s
  | Val.int n => toString n

/-- A row of the export table: the value of the `NUMBER` column together with
the remaining cells (`SELECT *` returns `NUMBER` first in this model). -/
structure Row where
  number : Int
  rest : List Val
deriving DecidableEq

/-- The row as the positional cell list that `list(record)` yields. -/
def rowToCells (r : Row) : List Val :=
  Val.int r.number :: r.rest

/-- Comparison on rows by the `NUMBER` column (`ORDER BY NUMBER`). -/
def rowLe (a b : Row) : Prop := a.number ≤ b.number

instance : DecidableRel rowLe := fun a b =>
  inferInstanceAs (Decidable (a.number ≤ b.number))

instance : IsTotal Row rowLe := ⟨fun a b => Int.le_total a.number b.number⟩

instance : IsTrans Row rowLe := ⟨fun _ _ _ => Int.le_trans⟩

/-- The SQL predicate `NUMBER BETWEEN s AND e` (inclusive on both ends). -/
def inRange (s e : Int) (r : Row) : Bool :=
  decide (s ≤ r.number) && decide (r.number ≤ e)

/-- The range query of `import_data` (line 134):
`SELECT * FROM t WHERE NUMBER BETWEEN ? AND ? ORDER BY NUMBER` —
the rows whose `NUMBER` lies in `[s, e]`, sorted ascending by `NUMBER`. -/
def rangeQuery (db : List Row) (s e : Int) : List Row :=
  List.insertionSort rowLe (db.filter (inRange s e))

/-! ## Workbook model (openpyxl) -/

/-- The single worksheet of the workbook produced by `import_data`: its cell
rows, whether `auto_filter.ref` has been set to the sheet dimensions, and the
`auto_filter.filterColumn` list — each `add_filter_column(colId, vals)` call
appends one `(colId, vals)` entry, in call order. -/
structure Sheet where
  rows : List (List Val)
  autoFilterRefSet : Bool
  filterColumns : List (Nat × List String)
deriving DecidableEq

/-- A fresh workbook's active sheet, before anything is appended. -/
def emptySheet : Sheet :=
  { rows := [], autoFilterRefSet := false, filterColumns := [] }

/-- `ws.append(row)`: adds one row after the last. -/
def wsAppend (s : Sheet) (row : List Val) : Sheet :=
  { s with rows := s.rows ++ [row] }

/-- The Spreadsheet Writer of `import_data` (lines 140–148): a fresh single
sheet, append the header row, then append each record in order. -/
def writeWorkbook (header : List Val) (records : List (List Val)) : Sheet :=
  records.foldl wsAppend (wsAppend emptySheet header)

/-- `ws.cell(row=1, column=c+1).value` for `c` 0-based: a cell never written
reads back as `None`. -/
def cellAt (row : List Val) (c : Nat) : Val :=
  (row.get? c).getD Val.null

/-- Row 1 of the sheet (the header row of a populated export sheet). -/
def sheetRow1 (s : Sheet) : List Val :=
  (s.rows.head?).getD []

/-- `ws.max_column`: the widest row's cell count. -/
def sheetMaxColumn (s : Sheet) : Nat :=
  s.rows.foldr (fun r m => max r.length m) 0

/-! ## Python string containment (`kw in text`) -/

/-- `startMatch pat s`: `pat` is a leading run of `s` (character lists). -/
def startMatch : List Char → List Char → Bool
  | [], _ => true
  | _ :: _, [] => false
  | p :: ps, c :: cs => p == c && startMatch ps cs

/-- `insideMatch pat s`: `pat` occurs contiguously somewhere inside `s`. -/
def insideMatch : List Char → List Char → Bool
  | pat, [] => startMatch pat []
  | pat, s@(_ :: cs) => startMatch pat s || insideMatch pat cs

/-- Python `pat in s` on strings: contiguous substring containment. -/
def pyIn (pat s : String) : Bool :=
  insideMatch pat.data s.data

/-- Python `s.upper()`, character by character (ASCII case, which is all the
source's keywords and headers use). -/
def strUpper (s : String) : String :=
  String.mk (s.data.map Char.toUpper)

/-- The claim's premise, "`h` contains `k` as a case-insensitive substring". -/
def ciContains (h k : String) : Bool :=
  pyIn (strUpper k) (strUpper h)

/-! ## The importer GUI state and `import_data` -/

/-- The inputs `import_data` reads from the widget fields, plus the
`self.headers` attribute captured by the last successful `load_columns`. -/
structure ImporterState where
  tableName : String
  startNum : Int
  endNum : Int
  keywords : List String
  sortCol1 : String
  sortCol2 : String
  headers : List String
deriving DecidableEq

/-- Lines 155–164: the explicit filter-column step — for each designated sort
column that is one of the captured headers (skipping a duplicate second
choice), one criterion carrying the full keyword list at that header's index. -/
def explicitAdds (st : ImporterState) : List (Nat × List String) :=
  (if st.headers.contains st.sortCol1 then
    [(st.headers.indexOf st.sortCol1, st.keywords)] else [])
  ++ (if st.headers.contains st.sortCol2 && st.sortCol2 != st.sortCol1 then
    [(st.headers.indexOf st.sortCol2, st.keywords)] else [])

/-- Lines 166–169: the header-substring step — for each keyword (outer loop)
and each column `1..max_column` (inner loop), if the keyword occurs verbatim
in the upper-cased row-1 cell text, one criterion carrying exactly that
keyword at the 0-based column index. -/
def headerPassAdds (keywords : List String) (row1 : List Val) (maxCol : Nat) :
    List (Nat × List String) :=
  keywords.flatMap fun kw =>
    (List.range maxCol).filterMap fun c =>
      if pyIn kw (strUpper (pyStr (cellAt row1 c))) then some (c, [kw]) else none

/-- Lines 151–169: the whole Keyword Column Filter pass on the populated
sheet — set `auto_filter.ref`, then append the explicit-column criteria and
the header-substring criteria. -/
def filterPass (st : ImporterState) (s : Sheet) : Sheet :=
  { s with
    autoFilterRefSet := true
    filterColumns := s.filterColumns
      ++ explicitAdds st
      ++ headerPassAdds st.keywords (sheetRow1 s) (sheetMaxColumn s) }

/-- One table of the Access database: its ordered column names (what
`cursor.description` yields) and its rows. -/
structure ExportTable where
  schema : List String
  rowsData : List Row
deriving DecidableEq

/-- The status line `import_data` reports for an empty match set:
`ValueError` message of line 138 surfaced by the handler of line 176. -/
def emptyErrorStatus (st : ImporterState) : String :=
  "Error: No records found in table " ++ st.tableName ++ " for NUMBER range "
    ++ toString st.startNum ++ " to " ++ toString st.endNum

/-- What one `import_data` click produces: the workbook states saved to the
destination path, in order, and the line appended to the status area. -/
structure ImportResult where
  saves : List Sheet
  status : String
deriving DecidableEq

/-- `import_data` (lines 122–176): query the current table for the `NUMBER`
range; raise (caught and surfaced) on zero rows, before any workbook exists;
otherwise write headers-then-records, save, run the filter pass, save again. -/
def import_data (db : List (String × ExportTable)) (st : ImporterState) :
    ImportResult :=
  match List.lookup st.tableName db with
  | none =>
      { saves := [],
        status := "Error: table " ++ st.tableName ++ " not found" }
  | some t =>
      let records := rangeQuery t.rowsData st.startNum st.endNum
      if records.isEmpty then
        { saves := [], status := emptyErrorStatus st }
      else
        let base := writeWorkbook (st.headers.map Val.str)
          (records.map rowToCells)
        { saves := [base, filterPass st base],
          status := "Data imported and sorted successfully! Imported "
            ++ toString records.length ++ " records." }

/-- `load_columns` (lines 100–120): on success capture the current table's
column names into `self.headers`; any failure is caught and leaves the
captured headers unchanged. -/
def load_columns (db : List (String × ExportTable)) (st : ImporterState) :
    ImporterState :=
  match List.lookup st.tableName db with
  | some t => { st with headers := t.schema }
  | none => st

/-- The user edits the Table Name field. -/
def setTableName (st : ImporterState) (t : String) : ImporterState :=
  { st with tableName := t }

/-! ## Settings store (`access_connector.py`, class `Settings`) -/

/-- A settings value: string, boolean, integer, or a pair of integers (the
window size tuple). -/
inductive SVal where
  | s (v : String) : SVal
  | b (v : Bool) : SVal
  | n (v : Int) : SVal
  | pair (a b : Int) : SVal
deriving DecidableEq

/-- A flat JSON-like record, keys in insertion order (a Python dict). -/
abbrev SettingsRec := List (String × SVal)

/-- The hardcoded default record of `Settings.__init__` (lines 20–28). -/
def defaultSettings : SettingsRec :=
  [("db_path", SVal.s ""),
   ("auto_sync", SVal.b false),
   ("sync_interval", SVal.s "Daily"),
   ("selected_table", SVal.s ""),
   ("last_connection_status", SVal.b false),
   ("window_size", SVal.pair 800 750),
   ("table_display_rows", SVal.n 12)]

/-- Python `base.update(upd)` on dicts: every key of `base` keeps its
position but takes `upd`'s value when present; keys of `upd` not in `base`
are appended in `upd`'s order. -/
def dictUpdate (base upd : SettingsRec) : SettingsRec :=
  base.map (fun kv => (kv.1, (List.lookup kv.1 upd).getD kv.2))
    ++ upd.filter (fun kv => (List.lookup kv.1 base).isNone)

/-- What the fixed config path holds: no file, an unparseable file, or a
parsed flat record. -/
inductive FileState where
  | missing : FileState
  | malformed : FileState
  | parsed (record : SettingsRec) : FileState

/-- `Settings.load_settings` (lines 31–39): the in-memory record starts as
the defaults; an existing parseable file is merged in by `dict.update`; a
missing file is skipped; a parse failure is caught and printed
(second component: the logged error line, if any). The return type has no
error channel: the caller can never observe an exception. -/
def load_settings (file : FileState) : SettingsRec × Option String :=
  match file with
  | FileState.missing => (defaultSettings, none)
  | FileState.malformed =>
      (defaultSettings, some "Error loading settings: Expecting value")
  | FileState.parsed r => (dictUpdate defaultSettings r, none)

/-! ## Table preview (`AccessDatabaseManager.get_table_preview`) -/

/-- A database table as the preview sees it: ordered column names and rows of
nullable cells. -/
structure DbTable where
  columns : List String
  rows : List (List Val)
deriving DecidableEq

/-- Line 128's cell conversion: `str(cell) if cell is not None else ''`. -/
def displayCell (v : Val) : String :=
  match v with
  | Val.null => ""
  | v => pyStr v

/-- The connection state `get_table_preview` runs against: no connection
(`self.connection` is `None`), a connection whose query raises, or a live
connection to a set of named tables. -/
inductive DbState where
  | noConn : DbState
  | connFail (msg : String) : DbState
  | conn (tables : List (String × DbTable)) : DbState

/-- The default row cap of `get_table_preview` (line 104). -/
def defaultPreviewLimit : Nat := 1000

/-- `get_table_preview` (lines 104–136): with no connection return
`([], [])`; run `SELECT TOP limit *`, read the column names, fetch the rows,
stringify every cell (`None` → `""`); any exception — including a
nonexistent table or a failing query — is caught and yields `([], [])`. -/
def get_table_preview (st : DbState) (tableName : String) (limit : Nat) :
    List String × List (List String) :=
  match st with
  | DbState.noConn => ([], [])
  | DbState.connFail _ => ([], [])
  | DbState.conn tables =>
      match List.lookup tableName tables with
      | none => ([], [])
      | some t =>
          (t.columns, (t.rows.take limit).map (fun row => row.map displayCell))

/-! ## Concrete scenarios used by witnesses and counterexamples -/

/-- A small unsorted table content with rows outside the range `[2, 4]`. -/
def demoDb : List Row :=
  [⟨5, [Val.str "e"]⟩, ⟨2, [Val.str "b"]⟩, ⟨7, []⟩, ⟨3, [Val.null]⟩]

/-- A one-table database whose only row has `NUMBER = 9`. -/
def dbNine : List (String × ExportTable) :=
  [("T", ⟨["NUMBER"], [⟨9, []⟩]⟩)]

/-- Importer inputs asking `dbNine` for the empty range `[1, 3]`. -/
def stNine : ImporterState :=
  { tableName := "T", startNum := 1, endNum := 3, keywords := [],
    sortCol1 := "", sortCol2 := "", headers := ["NUMBER"] }

/-- Importer inputs with the lowercase keyword `"video"` and the header
`"VIDEO"`: the case-insensitive premise holds but the code's match fails. -/
def stLowerKw : ImporterState :=
  { tableName := "T", startNum := 0, endNum := 0, keywords := ["video"],
    sortCol1 := "", sortCol2 := "", headers := ["VIDEO"] }

/-- The populated sheet whose header row is the single cell `"VIDEO"`. -/
def sheetLowerKw : Sheet :=
  writeWorkbook [Val.str "VIDEO"] [[Val.int 1]]

/-- Importer inputs with keyword `"VIDEO"` and header `"Video_Format"`. -/
def stUpperKw : ImporterState :=
  { tableName := "T", startNum := 0, endNum := 0, keywords := ["VIDEO"],
    sortCol1 := "", sortCol2 := "", headers := ["Video_Format"] }

/-- The populated sheet whose header row is the single cell `"Video_Format"`. -/
def sheetUpperKw : Sheet :=
  writeWorkbook [Val.str "Video_Format"] [[Val.int 1]]

/-- Table `A`, the one whose columns get captured. -/
def tableA : ExportTable := ⟨["NUMBER", "TYPE_A"], [⟨1, [Val.str "a1"]⟩]⟩

/-- Table `B`, the one that actually gets queried. -/
def tableB : ExportTable := ⟨["NUMBER", "TYPE_B"], [⟨1, [Val.str "b1"]⟩]⟩

/-- A database holding both tables. -/
def twoTableDb : List (String × ExportTable) := [("A", tableA), ("B", tableB)]

/-- Fresh importer state: table field `"A"`, range `[1, 1]`, no headers
captured yet. -/
def importerInit : ImporterState :=
  { tableName := "A", startNum := 1, endNum := 1, keywords := [],
    sortCol1 := "", sortCol2 := "", headers := [] }

/-- Load columns while the table field says `"A"`, then switch it to `"B"`
without reloading. -/
def staleState : ImporterState :=
  setTableName (load_columns twoTableDb importerInit) "B"

/-- The first workbook state `import_data` saves in the stale scenario. -/
def staleBase : Sheet :=
  writeWorkbook (staleState.headers.map Val.str)
    ((rangeQuery tableB.rowsData 1 1).map rowToCells)

/-- A one-column, zero-row preview table. -/
def emptyPreviewTable : DbTable := ⟨["A"], []⟩

/-- A two-column preview table with nulls and two rows. -/
def previewTable : DbTable :=
  ⟨["A", "B"], [[Val.null, Val.int 3], [Val.str "x", Val.null]]⟩

/-! ## Helper lemmas -/

lemma foldl_wsAppend_rows (records : List (List Val)) :
    ∀ s : Sheet, (records.foldl wsAppend s).rows = s.rows ++ records := by
  induction records with
  | nil => intro s; simp
  | cons r rs ih =>
      intro s
      simp [List.foldl, ih, wsAppend]

lemma writeWorkbook_rows (header : List Val) (records : List (List Val)) :
    (writeWorkbook header records).rows = header :: records := by
  simp [writeWorkbook, foldl_wsAppend_rows, wsAppend, emptySheet]

lemma filterPass_rows (st : ImporterState) (s : Sheet) :
    (filterPass st s).rows = s.rows := rfl

lemma sheetRow1_length_le (s : Sheet) :
    (sheetRow1 s).length ≤ sheetMaxColumn s := by
  cases h : s.rows with
  | nil => simp [sheetRow1, h]
  | cons r t =>
      simp only [sheetRow1, sheetMaxColumn, h, List.head?, Option.getD,
        List.foldr]
      exact le_max_left _ _

lemma lookup_append (l1 l2 : SettingsRec) (k : String) :
    List.lookup k (l1 ++ l2)
      = ((List.lookup k l1).orElse (fun _ => List.lookup k l2)) := by
  induction l1 with
  | nil => simp [Option.orElse]
  | cons a t ih =>
      obtain ⟨ka, va⟩ := a
      by_cases h : k = ka
      · subst h; simp [List.lookup]
      · have hbeq : (k == ka) = false := beq_eq_false_iff_ne.mpr h
        simp [List.lookup, hbeq, ih]

lemma lookup_map_upd (upd : SettingsRec) (base : SettingsRec) (k : String) :
    List.lookup k (base.map (fun kv => (kv.1, (List.lookup kv.1 upd).getD kv.2)))
      = (List.lookup k base).map (fun v => (List.lookup k upd).getD v) := by
  induction base with
  | nil => rfl
  | cons a t ih =>
      obtain ⟨ka, va⟩ := a
      by_cases h : k = ka
      · subst h; simp [List.lookup]
      · have hbeq : (k == ka) = false := beq_eq_false_iff_ne.mpr h
        simp [List.lookup, hbeq, ih]

lemma lookup_filter_none (base : SettingsRec) (k : String)
    (hk : List.lookup k base = none) (upd : SettingsRec) :
    List.lookup k (upd.filter (fun kv => (List.lookup kv.1 base).isNone))
      = List.lookup k upd := by
  induction upd with
  | nil => rfl
  | cons a t ih =>
      obtain ⟨ka, va⟩ := a
      by_cases hkka : k = ka
      · subst hkka
        simp [List.filter, hk, List.lookup, ih]
      · have hbeq : (k == ka) = false := beq_eq_false_iff_ne.mpr hkka
        by_cases hb : (List.lookup ka base).isNone <;>
          simp [List.filter, hb, List.lookup, hbeq, ih]

lemma lookup_dictUpdate (base upd : SettingsRec) (k : String) :
    List.lookup k (dictUpdate base upd)
      = ((List.lookup k upd).orElse (fun _ => List.lookup k base)) := by
  rw [dictUpdate, lookup_append, lookup_map_upd]
  cases hb : List.lookup k base with
  | some v =>
      cases hu : List.lookup k upd <;>
        simp [Option.orElse, hu, hb]
  | none =>
      rw [lookup_filter_none base k hb upd]
      cases hu : List.lookup k upd <;>
        simp [Option.orElse, hu, hb]

/-! ## Claim theorems -/

/-- C1: for every valid inclusive range `(start, end)` with `start ≤ end`,
the range query of `import_data` returns exactly the rows whose `NUMBER`
value lies in `[start, end]` (a permutation of the matching rows), sorted
ascending by `NUMBER`, and never a row whose `NUMBER` is outside the range. -/
theorem rangeQuery_exact_sorted (db : List Row) (s e : Int) (_hse : s ≤ e) :
    List.Perm (rangeQuery db s e) (db.filter (inRange s e))
    ∧ List.Sorted rowLe (rangeQuery db s e)
    ∧ ∀ r ∈ rangeQuery db s e, s ≤ r.number ∧ r.number ≤ e := by
  refine ⟨List.perm_insertionSort rowLe _, List.sorted_insertionSort rowLe _, ?_⟩
  intro r hr
  rw [rangeQuery, List.mem_insertionSort] at hr
  have h2 := (List.mem_filter.mp hr).2
  simpa [inRange] using h2

/-- Witness for C1 at the concrete database `demoDb` and range `[2, 4]`. -/
theorem rangeQuery_exact_sorted_witness :
    (2 : Int) ≤ 4
    ∧ (List.Perm (rangeQuery demoDb 2 4) (demoDb.filter (inRange 2 4))
      ∧ List.Sorted rowLe (rangeQuery demoDb 2 4)
      ∧ ∀ r ∈ rangeQuery demoDb 2 4, 2 ≤ r.number ∧ r.number ≤ 4) :=
  ⟨by decide, rangeQuery_exact_sorted demoDb 2 4 (by decide)⟩

/-- C2: when zero rows of the queried table have `NUMBER` in the range,
`import_data` surfaces the `ValueError` as a user-facing `Error:` status
line and writes no workbook at all. -/
theorem import_data_empty_error (db : List (String × ExportTable))
    (st : ImporterState) (t : ExportTable)
    (hl : List.lookup st.tableName db = some t)
    (he : t.rowsData.filter (inRange st.startNum st.endNum) = []) :
    (import_data db st).saves = []
    ∧ (import_data db st).status = emptyErrorStatus st := by
  have hq : rangeQuery t.rowsData st.startNum st.endNum = [] := by
    rw [rangeQuery, he]
    rfl
  constructor <;> simp [import_data, hl, hq]

/-- Witness for C2: table `T` of `dbNine` holds only `NUMBER = 9`, so the
range `[1, 3]` matches nothing. -/
theorem import_data_empty_error_witness :
    List.lookup stNine.tableName dbNine = some ⟨["NUMBER"], [⟨9, []⟩]⟩
    ∧ (⟨["NUMBER"], [⟨9, []⟩]⟩ : ExportTable).rowsData.filter
        (inRange stNine.startNum stNine.endNum) = []
    ∧ ((import_data dbNine stNine).saves = []
      ∧ (import_data dbNine stNine).status = emptyErrorStatus stNine) :=
  ⟨by decide, by decide,
    import_data_empty_error dbNine stNine ⟨["NUMBER"], [⟨9, []⟩]⟩
      (by decide) (by decide)⟩

/-- C4: the whole Keyword Column Filter pass is idempotent on the set of
per-column filter criteria — running it a second time with the same inputs
only repeats entries that are already present. -/
theorem filterPass_idem (st : ImporterState) (s : Sheet) :
    (filterPass st (filterPass st s)).filterColumns.toFinset
      = (filterPass st s).filterColumns.toFinset := by
  ext x
  simp only [filterPass, List.mem_toFinset, List.mem_append]
  tauto

/-- C5: the Spreadsheet Writer yields a sheet whose row 1 is the header list
and whose rows 2..N+1 are the data rows in original order, so reading the
sheet back gives exactly the headers and the data. -/
theorem writeWorkbook_roundtrip (H : List Val) (R : List (List Val)) :
    (writeWorkbook H R).rows = H :: R
    ∧ (writeWorkbook H R).rows.get? 0 = some H
    ∧ ∀ i : Nat, (writeWorkbook H R).rows.get? (i + 1) = R.get? i := by
  rw [writeWorkbook_rows]
  exact ⟨rfl, rfl, fun i => rfl⟩

/-- C3 counterexample: the header-substring match is not case-insensitive in
the keyword. Header `"VIDEO"` contains keyword `"video"` case-insensitively,
the keyword is in the list, yet the pass attaches no criterion at all:
line 168 upper-cases only the header text, never the keyword. -/
theorem headerFilter_case_cex :
    ciContains "VIDEO" "video" = true
    ∧ "video" ∈ stLowerKw.keywords
    ∧ sheetRow1 sheetLowerKw = [Val.str "VIDEO"]
    ∧ (filterPass stLowerKw sheetLowerKw).filterColumns = []
    ∧ (0, ["video"]) ∉ (filterPass stLowerKw sheetLowerKw).filterColumns := by
  refine ⟨by decide, by decide, by decide, by decide, by decide⟩

/-- C3 amended: if the keyword `k` occurs verbatim in the *upper-cased*
header text — so the match is insensitive to the header's case but requires
the keyword in its stored (upper) case — then the column carries the
criterion `{k}` after the pass. -/
theorem headerFilter_upper_match (st : ImporterState) (s : Sheet) (c : Nat)
    (h k : String)
    (hk : k ∈ st.keywords)
    (hc : (sheetRow1 s).get? c = some (Val.str h))
    (hm : pyIn k (strUpper h) = true) :
    (c, [k]) ∈ (filterPass st s).filterColumns := by
  have hlt : c < (sheetRow1 s).length := by
    cases hg : (sheetRow1 s).get? c with
    | none => rw [hg] at hc; cases hc
    | some v => exact (List.get?_eq_some.mp hg).1
  have hcr : c ∈ List.range (sheetMaxColumn s) :=
    List.mem_range.mpr (lt_of_lt_of_le hlt (sheetRow1_length_le s))
  have hcell : cellAt (sheetRow1 s) c = Val.str h := by
    simp only [cellAt, hc, Option.getD_some]
  simp only [filterPass, List.mem_append]
  right
  rw [headerPassAdds, List.mem_flatMap]
  refine ⟨k, hk, List.mem_filterMap.mpr ⟨c, hcr, ?_⟩⟩
  rw [hcell]
  simp [pyStr, hm]

/-- Witness for the amended C3: header `"Video_Format"` at column 0 and
keyword `"VIDEO"` produce the criterion `{VIDEO}` on column 0. -/
theorem headerFilter_upper_match_witness :
    "VIDEO" ∈ stUpperKw.keywords
    ∧ (sheetRow1 sheetUpperKw).get? 0 = some (Val.str "Video_Format")
    ∧ pyIn "VIDEO" (strUpper "Video_Format") = true
    ∧ (0, ["VIDEO"]) ∈ (filterPass stUpperKw sheetUpperKw).filterColumns :=
  ⟨by decide, by decide, by decide,
    headerFilter_upper_match stUpperKw sheetUpperKw 0 "Video_Format" "VIDEO"
      (by decide) (by decide) (by decide)⟩

/-- C6: loading a parsed record merges it onto the defaults per key — loaded
values win, keys absent from the file keep their default, unknown keys are
preserved; in particular a file holding only `db_path = "X"` yields the
defaults with `db_path` replaced. -/
theorem settings_merge :
    (∀ (r : SettingsRec) (k : String), (r.map Prod.fst).Nodup →
      List.lookup k (load_settings (FileState.parsed r)).1
        = ((List.lookup k r).orElse (fun _ => List.lookup k defaultSettings)))
    ∧ (load_settings (FileState.parsed [("db_path", SVal.s "X")])).1
        = [("db_path", SVal.s "X"),
           ("auto_sync", SVal.b false),
           ("sync_interval", SVal.s "Daily"),
           ("selected_table", SVal.s ""),
           ("last_connection_status", SVal.b false),
           ("window_size", SVal.pair 800 750),
           ("table_display_rows", SVal.n 12)] := by
  constructor
  · intro r k _
    simpa [load_settings] using lookup_dictUpdate defaultSettings r k
  · decide

/-- Witness for C6 at the one-key record `{"db_path": "X"}`. -/
theorem settings_merge_witness :
    (([("db_path", SVal.s "X")].map
        (Prod.fst (α := String) (β := SVal))).Nodup)
    ∧ List.lookup "db_path"
        (load_settings (FileState.parsed [("db_path", SVal.s "X")])).1
      = ((List.lookup "db_path" [("db_path", SVal.s "X")]).orElse
          (fun _ => List.lookup "db_path" defaultSettings)) :=
  ⟨by decide, settings_merge.1 [("db_path", SVal.s "X")] "db_path" (by decide)⟩

/-- C7: `load_settings` is total at its public interface — a missing config
file yields the defaults with nothing reported, and a malformed file yields
the defaults with the failure only logged; no exception can reach the caller
(the return type has no error channel). -/
theorem settings_load_never_fails :
    load_settings FileState.missing = (defaultSettings, none)
    ∧ (load_settings FileState.malformed).1 = defaultSettings
    ∧ (load_settings FileState.malformed).2
        = some "Error loading settings: Expecting value" :=
  ⟨rfl, rfl, rfl⟩

/-- C8: on a live connection holding the requested table,
`get_table_preview` returns the table's ordered column names and at most
`limit` rows with every null cell turned into `""` and every other cell into
its display string; hitting the cap just truncates, it is not an error. -/
theorem get_table_preview_spec (tables : List (String × DbTable))
    (tableName : String) (t : DbTable) (limit : Nat)
    (h : List.lookup tableName tables = some t) :
    get_table_preview (DbState.conn tables) tableName limit
      = (t.columns, (t.rows.take limit).map (fun row => row.map displayCell))
    ∧ (get_table_preview (DbState.conn tables) tableName limit).2.length
        = min limit t.rows.length
    ∧ displayCell Val.null = ""
    ∧ defaultPreviewLimit = 1000 := by
  refine ⟨by simp [get_table_preview, h], ?_, rfl, rfl⟩
  simp [get_table_preview, h]

/-- Witness for C8: the two-row table `previewTable` previewed with cap 1. -/
theorem get_table_preview_spec_witness :
    List.lookup "T" [("T", previewTable)] = some previewTable
    ∧ (get_table_preview (DbState.conn [("T", previewTable)]) "T" 1
        = (previewTable.columns,
           (previewTable.rows.take 1).map (fun row => row.map displayCell))
      ∧ (get_table_preview (DbState.conn [("T", previewTable)]) "T" 1).2.length
          = min 1 previewTable.rows.length
      ∧ displayCell Val.null = ""
      ∧ defaultPreviewLimit = 1000) :=
  ⟨by decide,
    get_table_preview_spec [("T", previewTable)] "T" previewTable 1 (by decide)⟩

/-- C10 counterexample: previewing an existing but empty one-column table
returns its header list with no rows — not `([], [])` — so the caller can
tell an empty table from a failure, which returns `([], [])`. -/
theorem preview_empty_table_cex :
    get_table_preview (DbState.conn [("T", emptyPreviewTable)]) "T" 1000
      = (["A"], [])
    ∧ get_table_preview (DbState.conn [("T", emptyPreviewTable)]) "T" 1000
        ≠ ([], [])
    ∧ get_table_preview (DbState.conn [("T", emptyPreviewTable)]) "T" 1000
        ≠ get_table_preview DbState.noConn "T" 1000 := by
  refine ⟨by decide, by decide, by decide⟩

/-- C10 amended: `get_table_preview` never raises, and on every failing
input — no connection, a query that raises, or a nonexistent table — it
returns `([], [])`, so the distinct failure causes are mutually
indistinguishable by the return value. -/
theorem preview_failure_empty (tableName : String) (limit : Nat) (m : String)
    (tables : List (String × DbTable)) :
    get_table_preview DbState.noConn tableName limit = ([], [])
    ∧ get_table_preview (DbState.connFail m) tableName limit = ([], [])
    ∧ (List.lookup tableName tables = none →
        get_table_preview (DbState.conn tables) tableName limit = ([], [])) := by
  refine ⟨rfl, rfl, fun h => by simp [get_table_preview, h]⟩

/-- Witness for the amended C10: the table `"U"` is absent from the
one-table database, and every failure mode yields `([], [])`. -/
theorem preview_failure_empty_witness :
    List.lookup "U" [("T", previewTable)] = none
    ∧ (get_table_preview DbState.noConn "U" 1000 = ([], [])
      ∧ get_table_preview (DbState.connFail "boom") "U" 1000 = ([], [])
      ∧ (List.lookup "U" [("T", previewTable)] = none →
          get_table_preview (DbState.conn [("T", previewTable)]) "U" 1000
            = ([], []))) :=
  ⟨by decide, preview_failure_empty "U" 1000 "boom" [("T", previewTable)]⟩

/-- C9: the header row `import_data` writes is exactly the column list last
captured by `load_columns` (the empty list if none was ever captured), not
the schema of the table being queried: after capturing table `A`'s columns
and switching the table field to `B`, the export writes `A`'s headers over
`B`'s data, and with no capture at all it writes an empty header row. -/
theorem import_data_stale_headers :
    (∀ (db : List (String × ExportTable)) (st : ImporterState) (sheet : Sheet),
        sheet ∈ (import_data db st).saves →
        sheet.rows.head? = some (st.headers.map Val.str))
    ∧ ((import_data twoTableDb staleState).saves.map (fun sh => sh.rows.head?)
        = [some (tableA.schema.map Val.str), some (tableA.schema.map Val.str)])
    ∧ List.lookup staleState.tableName twoTableDb = some tableB
    ∧ tableA.schema ≠ tableB.schema
    ∧ ((import_data twoTableDb (setTableName importerInit "B")).saves.map
        (fun sh => sh.rows.head?) = [some [], some []]) := by
  refine ⟨?_, by decide, by decide, by decide, by decide⟩
  intro db st sheet hmem
  unfold import_data at hmem
  cases hl : List.lookup st.tableName db with
  | none => rw [hl] at hmem; simp at hmem
  | some t =>
      rw [hl] at hmem
      by_cases hre : (rangeQuery t.rowsData st.startNum st.endNum).isEmpty
      · simp [hre] at hmem
      · simp only [hre, Bool.false_eq_true, if_false, List.mem_cons,
          List.mem_singleton, List.not_mem_nil, or_false] at hmem
        rcases hmem with h | h <;> subst h
        · rw [writeWorkbook_rows]; rfl
        · rw [filterPass_rows, writeWorkbook_rows]; rfl

/-- Witness for C9: the first workbook state saved in the stale scenario is
in the save list and carries table `A`'s captured headers as its row 1. -/
theorem import_data_stale_headers_witness :
    staleBase ∈ (import_data twoTableDb staleState).saves
    ∧ staleBase.rows.head? = some (staleState.headers.map Val.str) :=
  ⟨by decide,
    import_data_stale_headers.1 twoTableDb staleState staleBase (by decide)⟩

end Connectors
